import Mathlib

/-!
Shallow embedding of `crates/sui-indexer-alt-jsonrpc/src/config.rs`: the
configuration-layering module of a JSON-RPC indexer.  Overlay ("layer")
records with optional fields are merged against baseline resolved records;
unrecognized keys collect in a per-layer `extra` TOML table and are drained
with a warning by `check_extra`.  The `warn!` side effect is embedded as a
writer output: every `finish` returns the resolved record together with the
list of warning messages it emits.
-/

namespace SuiConfig

/-- Embedding of `toml::Table` (the `extra` bucket of each layer): an
association list from keys to pre-rendered TOML value text.  The document
parser that populates it is an external collaborator, so values are kept as
their rendered text, which is all `check_extra` uses them for (display). -/
abbrev Table := List (String × String)

/-- Rendering of a `toml::Table` by its `Display` instance, as interpolated
into the warning message: one `key = value` line per entry. -/
def Table.render : Table → String
  | [] => ""
  | (k, v) :: rest => k ++ " = " ++ v ++ "\n" ++ Table.render rest

/-- Embedding of `SuiAddress` (opaque 32-byte address, from `sui_types`). -/
abbrev SuiAddress := Nat

/-- Embedding of `ObjectID` (opaque object identifier, from `sui_types`). -/
abbrev ObjectID := Nat

/-- Resolved record `ObjectsConfig` (declared in `crate::api::objects`;
`usize` fields embedded as `Nat`). -/
structure ObjectsConfig where
  max_multi_get_objects : Nat
  default_page_size : Nat
  max_page_size : Nat
  deriving DecidableEq, Repr

/-- Resolved record `TransactionsConfig` (declared in
`crate::api::transactions`). -/
structure TransactionsConfig where
  default_page_size : Nat
  max_page_size : Nat
  deriving DecidableEq, Repr

/-- Resolved record `NameServiceConfig` (declared in `sui_name_service`). -/
structure NameServiceConfig where
  package_address : SuiAddress
  registry_id : ObjectID
  reverse_registry_id : ObjectID
  deriving DecidableEq, Repr

/-- Resolved record `CoinsConfig` (declared in `crate::api::coin`). -/
structure CoinsConfig where
  default_page_size : Nat
  max_page_size : Nat
  deriving DecidableEq, Repr

/-- Resolved record `sui_package_resolver::Limits`. -/
structure Limits where
  max_type_argument_depth : Nat
  max_type_argument_width : Nat
  max_type_nodes : Nat
  max_move_value_depth : Nat
  deriving DecidableEq, Repr

/-- `BigtableConfig`: one mandatory string, no extras bucket. -/
structure BigtableConfig where
  instance_id : String
  deriving DecidableEq, Repr

/-- `ObjectsLayer`: the objects-subsystem overlay. -/
structure ObjectsLayer where
  max_multi_get_objects : Option Nat
  default_page_size : Option Nat
  max_page_size : Option Nat
  extra : Table
  deriving DecidableEq, Repr

/-- `TransactionsLayer`: the transactions-subsystem overlay. -/
structure TransactionsLayer where
  default_page_size : Option Nat
  max_page_size : Option Nat
  extra : Table
  deriving DecidableEq, Repr

/-- `NameServiceLayer`: the name-service overlay. -/
structure NameServiceLayer where
  package_address : Option SuiAddress
  registry_id : Option ObjectID
  reverse_registry_id : Option ObjectID
  extra : Table
  deriving DecidableEq, Repr

/-- `CoinsLayer`: the coins-subsystem overlay. -/
structure CoinsLayer where
  default_page_size : Option Nat
  max_page_size : Option Nat
  extra : Table
  deriving DecidableEq, Repr

/-- `PackageResolverLayer`: unlike the other layers its four fields are
mandatory in the overlay shape itself. -/
structure PackageResolverLayer where
  max_type_argument_depth : Nat
  max_type_argument_width : Nat
  max_type_nodes : Nat
  max_move_value_depth : Nat
  extra : Table
  deriving DecidableEq, Repr

/-- `RpcConfig`: the root overlay. -/
structure RpcConfig where
  objects : ObjectsLayer
  transactions : TransactionsLayer
  name_service : NameServiceLayer
  coins : CoinsLayer
  bigtable_config : Option BigtableConfig
  package_resolver : PackageResolverLayer
  extra : Table
  deriving DecidableEq, Repr

/-- Embedding of `fn check_extra(pos: &str, extra: toml::Table)`: returns the
list of warning messages emitted through `tracing::warn!` (empty or a
singleton).  The message text follows the source format string, with the
table interpolated through its `Display` rendering. -/
def check_extra (pos : String) (extra : Table) : List String :=
  if extra.isEmpty then []
  else
    ["Found unrecognized " ++ pos ++ " field" ++
      (if extra.length != 1 then "s" else "") ++
      " which will be ignored. This could be because of a typo, or because it was introduced in a newer version of the indexer:\n" ++
      Table.render extra]

/-- `ObjectsLayer::finish(self, base: ObjectsConfig) -> ObjectsConfig`,
with the emitted warnings returned alongside the resolved record. -/
def ObjectsLayer.finish (self : ObjectsLayer) (base : ObjectsConfig) :
    ObjectsConfig × List String :=
  ({ max_multi_get_objects :=
       self.max_multi_get_objects.getD base.max_multi_get_objects
     default_page_size := self.default_page_size.getD base.default_page_size
     max_page_size := self.max_page_size.getD base.max_page_size },
   check_extra "objects" self.extra)

/-- `TransactionsLayer::finish(self, base: TransactionsConfig)`. -/
def TransactionsLayer.finish (self : TransactionsLayer)
    (base : TransactionsConfig) : TransactionsConfig × List String :=
  ({ default_page_size := self.default_page_size.getD base.default_page_size
     max_page_size := self.max_page_size.getD base.max_page_size },
   check_extra "transactions" self.extra)

/-- `NameServiceLayer::finish(self, base: NameServiceConfig)`. -/
def NameServiceLayer.finish (self : NameServiceLayer)
    (base : NameServiceConfig) : NameServiceConfig × List String :=
  ({ package_address := self.package_address.getD base.package_address
     registry_id := self.registry_id.getD base.registry_id
     reverse_registry_id :=
       self.reverse_registry_id.getD base.reverse_registry_id },
   check_extra "name service" self.extra)

/-- `CoinsLayer::finish(self, base: CoinsConfig)`. -/
def CoinsLayer.finish (self : CoinsLayer) (base : CoinsConfig) :
    CoinsConfig × List String :=
  ({ default_page_size := self.default_page_size.getD base.default_page_size
     max_page_size := self.max_page_size.getD base.max_page_size },
   check_extra "coins" self.extra)

/-- `PackageResolverLayer::finish(self) -> Limits`: no baseline argument. -/
def PackageResolverLayer.finish (self : PackageResolverLayer) :
    Limits × List String :=
  ({ max_type_argument_depth := self.max_type_argument_depth
     max_type_argument_width := self.max_type_argument_width
     max_type_nodes := self.max_type_nodes
     max_move_value_depth := self.max_move_value_depth },
   check_extra "package-resolver" self.extra)

/-- `RpcConfig::finish(mut self) -> RpcConfig`: `mem::take(&mut self.extra)`
drains the top-level extras bucket (leaving it empty in the returned record)
and passes its previous contents to `check_extra`. -/
def RpcConfig.finish (self : RpcConfig) : RpcConfig × List String :=
  ({ self with extra := [] }, check_extra "top-level" self.extra)

/-- `impl From<ObjectsConfig> for ObjectsLayer`: lift every mandatory field
into `some`, extras empty. -/
def ObjectsLayer.ofConfig (config : ObjectsConfig) : ObjectsLayer :=
  { max_multi_get_objects := some config.max_multi_get_objects
    default_page_size := some config.default_page_size
    max_page_size := some config.max_page_size
    extra := [] }

/-- `impl From<TransactionsConfig> for TransactionsLayer`. -/
def TransactionsLayer.ofConfig (config : TransactionsConfig) :
    TransactionsLayer :=
  { default_page_size := some config.default_page_size
    max_page_size := some config.max_page_size
    extra := [] }

/-- `impl From<NameServiceConfig> for NameServiceLayer`. -/
def NameServiceLayer.ofConfig (config : NameServiceConfig) :
    NameServiceLayer :=
  { package_address := some config.package_address
    registry_id := some config.registry_id
    reverse_registry_id := some config.reverse_registry_id
    extra := [] }

/-- `impl From<CoinsConfig> for CoinsLayer`. -/
def CoinsLayer.ofConfig (config : CoinsConfig) : CoinsLayer :=
  { default_page_size := some config.default_page_size
    max_page_size := some config.max_page_size
    extra := [] }

/-- Modelled from the spec: the protocol catalog record
(`sui_protocol_config::ProtocolConfig`, an external crate not under `src/`),
restricted to the four numeric limits the defaults provider reads.  The
source's `u32`/`u64` getters are embedded as `Nat`, so the `as usize` cast of
each (a lossless non-negative coercion on the 64-bit targets the binary runs
on) is the identity here. -/
structure ProtocolConfig where
  max_type_argument_depth : Nat
  max_generic_instantiation_length : Nat
  max_type_nodes : Nat
  max_move_value_depth : Nat
  deriving DecidableEq, Repr

/-- `impl Default for PackageResolverLayer`, parameterized by the protocol
catalog record that `ProtocolConfig::get_for_max_version_UNSAFE()` (external)
returns for the maximum statically-known protocol version. -/
def PackageResolverLayer.defaultFrom (config : ProtocolConfig) :
    PackageResolverLayer :=
  { max_type_argument_depth := config.max_type_argument_depth
    max_type_argument_width := config.max_generic_instantiation_length
    max_type_nodes := config.max_type_nodes
    max_move_value_depth := config.max_move_value_depth
    extra := [] }

/-- `RpcConfig::example()`, parameterized by the external baseline default
resolved records (`ObjectsConfig::default()` and friends are declared outside
`src/`) and by the protocol catalog record used by
`PackageResolverLayer::default()`. -/
def RpcConfig.example (dObjects : ObjectsConfig)
    (dTransactions : TransactionsConfig) (dNameService : NameServiceConfig)
    (dCoins : CoinsConfig) (protocol : ProtocolConfig) : RpcConfig :=
  { objects := ObjectsLayer.ofConfig dObjects
    transactions := TransactionsLayer.ofConfig dTransactions
    name_service := NameServiceLayer.ofConfig dNameService
    coins := CoinsLayer.ofConfig dCoins
    bigtable_config := none
    package_resolver := PackageResolverLayer.defaultFrom protocol
    extra := [] }

/-- A needle string occurs somewhere inside a haystack string. -/
def occursIn (needle hay : String) : Prop :=
  ∃ s t, hay.data = s ++ needle.data ++ t

/-- Occurrence is preserved by prepending to the haystack. -/
theorem occursIn_append_left (needle pre hay : String)
    (h : occursIn needle hay) : occursIn needle (pre ++ hay) := by
  obtain ⟨s, t, hst⟩ := h
  exact ⟨pre.data ++ s, t, by simp [String.data_append, hst]⟩

/-- Every key of a table occurs in the rendering of the table. -/
theorem occursIn_render (t : Table) (k v : String) (h : (k, v) ∈ t) :
    occursIn k (Table.render t) := by
  induction t with
  | nil => cases h
  | cons hd tl ih =>
    cases h with
    | head =>
      exact ⟨[], (" = " ++ v ++ "\n" ++ Table.render tl).data,
        by simp [Table.render, String.data_append]⟩
    | tail _ hmem =>
      have hrec := ih hmem
      obtain ⟨s, u, hsu⟩ := hrec
      exact ⟨(hd.1 ++ " = " ++ hd.2 ++ "\n").data ++ s, u,
        by simp [Table.render, String.data_append, hsu]⟩

/-- With an empty extras bucket, `check_extra` warns nothing. -/
theorem check_extra_nil (pos : String) : check_extra pos [] = [] := rfl

/-- With a non-empty extras bucket, `check_extra` emits exactly one warning. -/
theorem check_extra_length (pos : String) (extra : Table) (h : extra ≠ []) :
    (check_extra pos extra).length = 1 := by
  cases extra with
  | nil => exact absurd rfl h
  | cons hd tl => simp [check_extra]

/-- Every key of the extras bucket occurs in the warning message. -/
theorem check_extra_mentions (pos : String) (extra : Table) (k v : String)
    (h : (k, v) ∈ extra) :
    ∀ msg ∈ check_extra pos extra, occursIn k msg := by
  intro msg hmsg
  cases extra with
  | nil => cases h
  | cons hd tl =>
    simp only [check_extra, List.isEmpty_cons, if_neg Bool.false_ne_true,
      List.mem_singleton] at hmsg
    subst hmsg
    exact occursIn_append_left _ _ _ (occursIn_render _ k v h)

/-- C1: Inheritance law. For every subsystem merger with a baseline
(objects, transactions, name service, coins) and every field of its record,
if the overlay's field is absent the merged record's field equals the
baseline's, and if it is present with value `v` the merged field equals `v`. -/
theorem inheritance_law :
    (∀ (o : ObjectsLayer) (b : ObjectsConfig) (v : Nat),
      (o.max_multi_get_objects = none →
        (o.finish b).1.max_multi_get_objects = b.max_multi_get_objects) ∧
      (o.max_multi_get_objects = some v →
        (o.finish b).1.max_multi_get_objects = v) ∧
      (o.default_page_size = none →
        (o.finish b).1.default_page_size = b.default_page_size) ∧
      (o.default_page_size = some v →
        (o.finish b).1.default_page_size = v) ∧
      (o.max_page_size = none →
        (o.finish b).1.max_page_size = b.max_page_size) ∧
      (o.max_page_size = some v → (o.finish b).1.max_page_size = v)) ∧
    (∀ (o : TransactionsLayer) (b : TransactionsConfig) (v : Nat),
      (o.default_page_size = none →
        (o.finish b).1.default_page_size = b.default_page_size) ∧
      (o.default_page_size = some v →
        (o.finish b).1.default_page_size = v) ∧
      (o.max_page_size = none →
        (o.finish b).1.max_page_size = b.max_page_size) ∧
      (o.max_page_size = some v → (o.finish b).1.max_page_size = v)) ∧
    (∀ (o : NameServiceLayer) (b : NameServiceConfig) (v : Nat),
      (o.package_address = none →
        (o.finish b).1.package_address = b.package_address) ∧
      (o.package_address = some v → (o.finish b).1.package_address = v) ∧
      (o.registry_id = none → (o.finish b).1.registry_id = b.registry_id) ∧
      (o.registry_id = some v → (o.finish b).1.registry_id = v) ∧
      (o.reverse_registry_id = none →
        (o.finish b).1.reverse_registry_id = b.reverse_registry_id) ∧
      (o.reverse_registry_id = some v →
        (o.finish b).1.reverse_registry_id = v)) ∧
    (∀ (o : CoinsLayer) (b : CoinsConfig) (v : Nat),
      (o.default_page_size = none →
        (o.finish b).1.default_page_size = b.default_page_size) ∧
      (o.default_page_size = some v →
        (o.finish b).1.default_page_size = v) ∧
      (o.max_page_size = none →
        (o.finish b).1.max_page_size = b.max_page_size) ∧
      (o.max_page_size = some v → (o.finish b).1.max_page_size = v)) := by
  refine ⟨?_, ?_, ?_, ?_⟩ <;> intro o b v <;> and_intros <;> intro h <;>
    simp [ObjectsLayer.finish, TransactionsLayer.finish,
      NameServiceLayer.finish, CoinsLayer.finish, h]

/-- Witness for C1 at concrete inputs: an objects overlay overriding only
`default_page_size`, a transactions overlay overriding only
`max_page_size`, a fully-absent name-service overlay, and a fully-present
coins overlay. -/
theorem inheritance_law_witness :
    ((ObjectsLayer.finish ⟨none, some 7, none, []⟩
        ⟨1, 2, 3⟩).1.max_multi_get_objects = 1 ∧
      (ObjectsLayer.finish ⟨none, some 7, none, []⟩
        ⟨1, 2, 3⟩).1.default_page_size = 7 ∧
      (ObjectsLayer.finish ⟨none, some 7, none, []⟩
        ⟨1, 2, 3⟩).1.max_page_size = 3) ∧
    ((TransactionsLayer.finish ⟨none, some 9, []⟩
        ⟨4, 5⟩).1.default_page_size = 4 ∧
      (TransactionsLayer.finish ⟨none, some 9, []⟩
        ⟨4, 5⟩).1.max_page_size = 9) ∧
    ((NameServiceLayer.finish ⟨none, none, none, []⟩
        ⟨10, 11, 12⟩).1.package_address = 10 ∧
      (NameServiceLayer.finish ⟨none, none, none, []⟩
        ⟨10, 11, 12⟩).1.registry_id = 11 ∧
      (NameServiceLayer.finish ⟨none, none, none, []⟩
        ⟨10, 11, 12⟩).1.reverse_registry_id = 12) ∧
    ((CoinsLayer.finish ⟨some 20, some 21, []⟩
        ⟨6, 8⟩).1.default_page_size = 20 ∧
      (CoinsLayer.finish ⟨some 20, some 21, []⟩
        ⟨6, 8⟩).1.max_page_size = 21) := by
  obtain ⟨hO, hT, hN, hC⟩ := inheritance_law
  refine ⟨⟨?_, ?_, ?_⟩, ⟨?_, ?_⟩, ⟨?_, ?_, ?_⟩, ⟨?_, ?_⟩⟩
  · exact (hO ⟨none, some 7, none, []⟩ ⟨1, 2, 3⟩ 7).1 rfl
  · exact (hO ⟨none, some 7, none, []⟩ ⟨1, 2, 3⟩ 7).2.2.2.1 rfl
  · exact (hO ⟨none, some 7, none, []⟩ ⟨1, 2, 3⟩ 7).2.2.2.2.1 rfl
  · exact (hT ⟨none, some 9, []⟩ ⟨4, 5⟩ 9).1 rfl
  · exact (hT ⟨none, some 9, []⟩ ⟨4, 5⟩ 9).2.2.2 rfl
  · exact (hN ⟨none, none, none, []⟩ ⟨10, 11, 12⟩ 0).1 rfl
  · exact (hN ⟨none, none, none, []⟩ ⟨10, 11, 12⟩ 0).2.2.1 rfl
  · exact (hN ⟨none, none, none, []⟩ ⟨10, 11, 12⟩ 0).2.2.2.2.1 rfl
  · exact (hC ⟨some 20, some 21, []⟩ ⟨6, 8⟩ 20).2.1 rfl
  · exact (hC ⟨some 20, some 21, []⟩ ⟨6, 8⟩ 21).2.2.2 rfl

/-- C3: Left inverse. For every subsystem with a baseline source, lifting a
resolved record `r` into an overlay (every field `some`, extras empty) and
merging against any baseline yields `r` back, with no warnings; in
particular merging against `r` itself yields `r`. -/
theorem lift_left_inverse :
    (∀ (r rb : ObjectsConfig),
      (ObjectsLayer.ofConfig r).finish rb = (r, []) ∧
      (ObjectsLayer.ofConfig r).finish r = (r, [])) ∧
    (∀ (r rb : TransactionsConfig),
      (TransactionsLayer.ofConfig r).finish rb = (r, []) ∧
      (TransactionsLayer.ofConfig r).finish r = (r, [])) ∧
    (∀ (r rb : NameServiceConfig),
      (NameServiceLayer.ofConfig r).finish rb = (r, []) ∧
      (NameServiceLayer.ofConfig r).finish r = (r, [])) ∧
    (∀ (r rb : CoinsConfig),
      (CoinsLayer.ofConfig r).finish rb = (r, []) ∧
      (CoinsLayer.ofConfig r).finish r = (r, [])) :=
  ⟨fun _ _ => ⟨rfl, rfl⟩, fun _ _ => ⟨rfl, rfl⟩,
    fun _ _ => ⟨rfl, rfl⟩, fun _ _ => ⟨rfl, rfl⟩⟩

/-- C5: Package-resolver defaults. The default package-resolver overlay's
four fields equal, respectively, the protocol catalog's max type-argument
depth, max generic instantiation length, max type nodes and max Move-value
depth (at the maximum statically-known protocol version, which is the record
the constructor is given), and its extras bucket is empty. -/
theorem package_resolver_defaults :
    ∀ p : ProtocolConfig,
      (PackageResolverLayer.defaultFrom p).max_type_argument_depth =
        p.max_type_argument_depth ∧
      (PackageResolverLayer.defaultFrom p).max_type_argument_width =
        p.max_generic_instantiation_length ∧
      (PackageResolverLayer.defaultFrom p).max_type_nodes =
        p.max_type_nodes ∧
      (PackageResolverLayer.defaultFrom p).max_move_value_depth =
        p.max_move_value_depth ∧
      (PackageResolverLayer.defaultFrom p).extra = [] :=
  fun _ => ⟨rfl, rfl, rfl, rfl, rfl⟩

/-- C10: The package-resolver merger takes no baseline and copies its four
mandatory fields into the `Limits` record verbatim, whatever the extras
bucket holds; it consults no protocol catalog (its only input is the
overlay itself). -/
theorem package_resolver_finish_verbatim :
    ∀ l : PackageResolverLayer,
      l.finish.1.max_type_argument_depth = l.max_type_argument_depth ∧
      l.finish.1.max_type_argument_width = l.max_type_argument_width ∧
      l.finish.1.max_type_nodes = l.max_type_nodes ∧
      l.finish.1.max_move_value_depth = l.max_move_value_depth :=
  fun _ => ⟨rfl, rfl, rfl, rfl⟩

/-- C2: Extras warn, never fail. Every merger is total (it is a Lean
function, so it returns a resolved record on every input); when the
overlay's extras bucket is non-empty it emits exactly one warning, and that
warning mentions each unrecognized key; when the bucket is empty it emits
zero warnings. -/
theorem extras_warn_never_fail :
    (∀ (o : ObjectsLayer) (b : ObjectsConfig),
      (o.extra = [] → (o.finish b).2 = []) ∧
      (o.extra ≠ [] → (o.finish b).2.length = 1 ∧
        ∀ k v, (k, v) ∈ o.extra →
          ∀ msg ∈ (o.finish b).2, occursIn k msg)) ∧
    (∀ (o : TransactionsLayer) (b : TransactionsConfig),
      (o.extra = [] → (o.finish b).2 = []) ∧
      (o.extra ≠ [] → (o.finish b).2.length = 1 ∧
        ∀ k v, (k, v) ∈ o.extra →
          ∀ msg ∈ (o.finish b).2, occursIn k msg)) ∧
    (∀ (o : NameServiceLayer) (b : NameServiceConfig),
      (o.extra = [] → (o.finish b).2 = []) ∧
      (o.extra ≠ [] → (o.finish b).2.length = 1 ∧
        ∀ k v, (k, v) ∈ o.extra →
          ∀ msg ∈ (o.finish b).2, occursIn k msg)) ∧
    (∀ (o : CoinsLayer) (b : CoinsConfig),
      (o.extra = [] → (o.finish b).2 = []) ∧
      (o.extra ≠ [] → (o.finish b).2.length = 1 ∧
        ∀ k v, (k, v) ∈ o.extra →
          ∀ msg ∈ (o.finish b).2, occursIn k msg)) ∧
    (∀ o : PackageResolverLayer,
      (o.extra = [] → o.finish.2 = []) ∧
      (o.extra ≠ [] → o.finish.2.length = 1 ∧
        ∀ k v, (k, v) ∈ o.extra → ∀ msg ∈ o.finish.2, occursIn k msg)) ∧
    (∀ c : RpcConfig,
      (c.extra = [] → c.finish.2 = []) ∧
      (c.extra ≠ [] → c.finish.2.length = 1 ∧
        ∀ k v, (k, v) ∈ c.extra → ∀ msg ∈ c.finish.2, occursIn k msg)) := by
  refine ⟨fun o b => ⟨?_, ?_⟩, fun o b => ⟨?_, ?_⟩, fun o b => ⟨?_, ?_⟩,
    fun o b => ⟨?_, ?_⟩, fun o => ⟨?_, ?_⟩, fun c => ⟨?_, ?_⟩⟩ <;>
    intro h
  case _ => exact congrArg (check_extra "objects") h
  case _ =>
    exact ⟨check_extra_length _ _ h,
      fun k v hk => check_extra_mentions "objects" o.extra k v hk⟩
  case _ => exact congrArg (check_extra "transactions") h
  case _ =>
    exact ⟨check_extra_length _ _ h,
      fun k v hk => check_extra_mentions "transactions" o.extra k v hk⟩
  case _ => exact congrArg (check_extra "name service") h
  case _ =>
    exact ⟨check_extra_length _ _ h,
      fun k v hk => check_extra_mentions "name service" o.extra k v hk⟩
  case _ => exact congrArg (check_extra "coins") h
  case _ =>
    exact ⟨check_extra_length _ _ h,
      fun k v hk => check_extra_mentions "coins" o.extra k v hk⟩
  case _ => exact congrArg (check_extra "package-resolver") h
  case _ =>
    exact ⟨check_extra_length _ _ h,
      fun k v hk => check_extra_mentions "package-resolver" o.extra k v hk⟩
  case _ => exact congrArg (check_extra "top-level") h
  case _ =>
    exact ⟨check_extra_length _ _ h,
      fun k v hk => check_extra_mentions "top-level" c.extra k v hk⟩

/-- Witness for C2: an objects overlay with two unrecognized keys warns
exactly once and the warning mentions the key `foo`; an empty-extras coins
overlay warns nothing. -/
theorem extras_warn_never_fail_witness :
    ((ObjectsLayer.finish
        ⟨none, none, none,
          [("max_page_sizes", "100"), ("foo", "bar")]⟩
        ⟨1, 2, 3⟩).2.length = 1 ∧
      ∀ msg ∈ (ObjectsLayer.finish
        ⟨none, none, none,
          [("max_page_sizes", "100"), ("foo", "bar")]⟩
        ⟨1, 2, 3⟩).2, occursIn "foo" msg) ∧
    (CoinsLayer.finish ⟨some 4, none, []⟩ ⟨5, 6⟩).2 = [] := by
  obtain ⟨hO, _, _, hC, _, _⟩ := extras_warn_never_fail
  have h1 := (hO ⟨none, none, none,
    [("max_page_sizes", "100"), ("foo", "bar")]⟩ ⟨1, 2, 3⟩).2 (by simp)
  exact ⟨⟨h1.1, h1.2 "foo" "bar" (by simp)⟩,
    (hC ⟨some 4, none, []⟩ ⟨5, 6⟩).1 rfl⟩

/-- C4: Example round-trip. The example root overlay (built from the
external default resolved records, which are parameters here) has every
child overlay field populated with `some` of that child's baseline default
value, `bigtable_config` absent and all extras empty, and merging its child
overlays against the baseline default records yields exactly those baseline
records. -/
theorem example_round_trip :
    ∀ (dO : ObjectsConfig) (dT : TransactionsConfig)
      (dN : NameServiceConfig) (dC : CoinsConfig) (p : ProtocolConfig),
      (RpcConfig.example dO dT dN dC p).objects.max_multi_get_objects =
        some dO.max_multi_get_objects ∧
      (RpcConfig.example dO dT dN dC p).objects.default_page_size =
        some dO.default_page_size ∧
      (RpcConfig.example dO dT dN dC p).objects.max_page_size =
        some dO.max_page_size ∧
      (RpcConfig.example dO dT dN dC p).objects.extra = [] ∧
      (RpcConfig.example dO dT dN dC p).transactions.default_page_size =
        some dT.default_page_size ∧
      (RpcConfig.example dO dT dN dC p).transactions.max_page_size =
        some dT.max_page_size ∧
      (RpcConfig.example dO dT dN dC p).transactions.extra = [] ∧
      (RpcConfig.example dO dT dN dC p).name_service.package_address =
        some dN.package_address ∧
      (RpcConfig.example dO dT dN dC p).name_service.registry_id =
        some dN.registry_id ∧
      (RpcConfig.example dO dT dN dC p).name_service.reverse_registry_id =
        some dN.reverse_registry_id ∧
      (RpcConfig.example dO dT dN dC p).name_service.extra = [] ∧
      (RpcConfig.example dO dT dN dC p).coins.default_page_size =
        some dC.default_page_size ∧
      (RpcConfig.example dO dT dN dC p).coins.max_page_size =
        some dC.max_page_size ∧
      (RpcConfig.example dO dT dN dC p).coins.extra = [] ∧
      (RpcConfig.example dO dT dN dC p).bigtable_config = none ∧
      (RpcConfig.example dO dT dN dC p).extra = [] ∧
      ((RpcConfig.example dO dT dN dC p).objects.finish dO).1 = dO ∧
      ((RpcConfig.example dO dT dN dC p).transactions.finish dT).1 = dT ∧
      ((RpcConfig.example dO dT dN dC p).name_service.finish dN).1 = dN ∧
      ((RpcConfig.example dO dT dN dC p).coins.finish dC).1 = dC := by
  intro dO dT dN dC p
  and_intros <;> rfl

/-- C6: Root merger frame property. Finishing a root overlay drains only
the top-level extras bucket (warning exactly once when it was non-empty,
not at all when it was empty) and leaves every other field — the five
child overlays and the optional `bigtable_config`, forwarded verbatim —
unchanged. -/
theorem root_finish_frame :
    ∀ c : RpcConfig,
      c.finish.1.objects = c.objects ∧
      c.finish.1.transactions = c.transactions ∧
      c.finish.1.name_service = c.name_service ∧
      c.finish.1.coins = c.coins ∧
      c.finish.1.bigtable_config = c.bigtable_config ∧
      c.finish.1.package_resolver = c.package_resolver ∧
      c.finish.1.extra = [] ∧
      (c.extra = [] → c.finish.2 = []) ∧
      (c.extra ≠ [] → c.finish.2.length = 1) := by
  intro c
  refine ⟨rfl, rfl, rfl, rfl, rfl, rfl, rfl, ?_, ?_⟩
  · exact fun h => congrArg (check_extra "top-level") h
  · exact fun h => check_extra_length _ _ h

/-- Witness for C6: a root overlay with one unrecognized top-level key
(the misspelling `objets`) keeps its children and warns exactly once. -/
theorem root_finish_frame_witness :
    (RpcConfig.finish
      ⟨⟨some 1, none, none, []⟩, ⟨none, none, []⟩, ⟨none, none, none, []⟩,
        ⟨none, none, []⟩, some ⟨"prod-1"⟩, ⟨2, 3, 4, 5, []⟩,
        [("objets", "")]⟩).1.bigtable_config = some ⟨"prod-1"⟩ ∧
    (RpcConfig.finish
      ⟨⟨some 1, none, none, []⟩, ⟨none, none, []⟩, ⟨none, none, none, []⟩,
        ⟨none, none, []⟩, some ⟨"prod-1"⟩, ⟨2, 3, 4, 5, []⟩,
        [("objets", "")]⟩).2.length = 1 := by
  have h := root_finish_frame
    ⟨⟨some 1, none, none, []⟩, ⟨none, none, []⟩, ⟨none, none, none, []⟩,
      ⟨none, none, []⟩, some ⟨"prod-1"⟩, ⟨2, 3, 4, 5, []⟩,
      [("objets", "")]⟩
  exact ⟨h.2.2.2.2.1, h.2.2.2.2.2.2.2.2 (by simp)⟩

/-- C9: Finishing the example root overlay is the identity on the record
and warns nothing: its extras bucket is already empty, so draining it is a
no-op and zero warning diagnostics are emitted. -/
theorem example_finish_identity :
    ∀ (dO : ObjectsConfig) (dT : TransactionsConfig)
      (dN : NameServiceConfig) (dC : CoinsConfig) (p : ProtocolConfig),
      (RpcConfig.example dO dT dN dC p).finish =
        (RpcConfig.example dO dT dN dC p, []) :=
  fun _ _ _ _ _ => rfl

/-- C7: Field independence. For every subsystem merger with a baseline,
the merged value of a field depends only on the overlay's and the
baseline's value of that same field: overlays and baselines agreeing on a
field merge to the same value for it, whatever their other fields hold. -/
theorem field_independence :
    (∀ (o1 o2 : ObjectsLayer) (b1 b2 : ObjectsConfig),
      (o1.max_multi_get_objects = o2.max_multi_get_objects →
        b1.max_multi_get_objects = b2.max_multi_get_objects →
        (o1.finish b1).1.max_multi_get_objects =
          (o2.finish b2).1.max_multi_get_objects) ∧
      (o1.default_page_size = o2.default_page_size →
        b1.default_page_size = b2.default_page_size →
        (o1.finish b1).1.default_page_size =
          (o2.finish b2).1.default_page_size) ∧
      (o1.max_page_size = o2.max_page_size →
        b1.max_page_size = b2.max_page_size →
        (o1.finish b1).1.max_page_size =
          (o2.finish b2).1.max_page_size)) ∧
    (∀ (o1 o2 : TransactionsLayer) (b1 b2 : TransactionsConfig),
      (o1.default_page_size = o2.default_page_size →
        b1.default_page_size = b2.default_page_size →
        (o1.finish b1).1.default_page_size =
          (o2.finish b2).1.default_page_size) ∧
      (o1.max_page_size = o2.max_page_size →
        b1.max_page_size = b2.max_page_size →
        (o1.finish b1).1.max_page_size =
          (o2.finish b2).1.max_page_size)) ∧
    (∀ (o1 o2 : NameServiceLayer) (b1 b2 : NameServiceConfig),
      (o1.package_address = o2.package_address →
        b1.package_address = b2.package_address →
        (o1.finish b1).1.package_address =
          (o2.finish b2).1.package_address) ∧
      (o1.registry_id = o2.registry_id →
        b1.registry_id = b2.registry_id →
        (o1.finish b1).1.registry_id = (o2.finish b2).1.registry_id) ∧
      (o1.reverse_registry_id = o2.reverse_registry_id →
        b1.reverse_registry_id = b2.reverse_registry_id →
        (o1.finish b1).1.reverse_registry_id =
          (o2.finish b2).1.reverse_registry_id)) ∧
    (∀ (o1 o2 : CoinsLayer) (b1 b2 : CoinsConfig),
      (o1.default_page_size = o2.default_page_size →
        b1.default_page_size = b2.default_page_size →
        (o1.finish b1).1.default_page_size =
          (o2.finish b2).1.default_page_size) ∧
      (o1.max_page_size = o2.max_page_size →
        b1.max_page_size = b2.max_page_size →
        (o1.finish b1).1.max_page_size =
          (o2.finish b2).1.max_page_size)) := by
  refine ⟨?_, ?_, ?_, ?_⟩ <;> intro o1 o2 b1 b2 <;> and_intros <;>
    intro h1 h2 <;>
    simp [ObjectsLayer.finish, TransactionsLayer.finish,
      NameServiceLayer.finish, CoinsLayer.finish, h1, h2]

/-- Witness for C7: two objects overlays agreeing only on
`max_multi_get_objects` (and two baselines agreeing there) merge to the
same value for that field, despite all their other fields and extras
differing. -/
theorem field_independence_witness :
    (ObjectsLayer.finish ⟨some 7, none, some 1, []⟩
      ⟨1, 2, 3⟩).1.max_multi_get_objects =
    (ObjectsLayer.finish ⟨some 7, some 9, none, [("k", "v")]⟩
      ⟨1, 5, 6⟩).1.max_multi_get_objects :=
  (field_independence.1 ⟨some 7, none, some 1, []⟩
    ⟨some 7, some 9, none, [("k", "v")]⟩ ⟨1, 2, 3⟩ ⟨1, 5, 6⟩).1 rfl rfl

/-- C8: Warning message format. Each merger passes its section's
human-readable name to `check_extra` ("top-level", "objects",
"transactions", "name service", "coins", "package-resolver"), and for a
non-empty extras bucket the single diagnostic embeds that name, uses the
singular " field" exactly when one unrecognized key is present and the
plural " fields" otherwise, and ends with the rendering of the
unrecognized keys. -/
theorem warning_message_format :
    (∀ (o : ObjectsLayer) (b : ObjectsConfig),
      (o.finish b).2 = check_extra "objects" o.extra) ∧
    (∀ (o : TransactionsLayer) (b : TransactionsConfig),
      (o.finish b).2 = check_extra "transactions" o.extra) ∧
    (∀ (o : NameServiceLayer) (b : NameServiceConfig),
      (o.finish b).2 = check_extra "name service" o.extra) ∧
    (∀ (o : CoinsLayer) (b : CoinsConfig),
      (o.finish b).2 = check_extra "coins" o.extra) ∧
    (∀ o : PackageResolverLayer,
      o.finish.2 = check_extra "package-resolver" o.extra) ∧
    (∀ c : RpcConfig, c.finish.2 = check_extra "top-level" c.extra) ∧
    (∀ (pos : String) (extra : Table), extra ≠ [] →
      check_extra pos extra =
        ["Found unrecognized " ++ pos ++
          (if extra.length = 1 then " field" else " fields") ++
          " which will be ignored. This could be because of a typo, or because it was introduced in a newer version of the indexer:\n" ++
          Table.render extra]) := by
  refine ⟨fun o b => rfl, fun o b => rfl, fun o b => rfl, fun o b => rfl,
    fun o => rfl, fun c => rfl, ?_⟩
  intro pos extra h
  cases extra with
  | nil => exact absurd rfl h
  | cons hd tl =>
    rcases eq_or_ne (hd :: tl).length 1 with hlen | hlen
    · simp only [check_extra, List.isEmpty_cons, Bool.false_eq_true,
        if_false, hlen, bne_self_eq_false, if_pos rfl]
      simp [String.append_empty]
    · simp only [check_extra, List.isEmpty_cons, Bool.false_eq_true,
        if_false, if_neg hlen]
      have hbne : ((hd :: tl).length != 1) = true := by
        simpa using hlen
      rw [hbne]
      simp only [if_true]
      refine congrArg (fun s => [s]) ?_
      apply String.ext
      simp only [String.data_append, List.append_assoc]
      rfl

/-- Witness for C8: a one-key objects bucket produces the singular
message, a two-key coins bucket the plural one, each rendered key-by-key
at the end. -/
theorem warning_message_format_witness :
    check_extra "objects" [("foo", "1")] =
      ["Found unrecognized objects field which will be ignored. This could be because of a typo, or because it was introduced in a newer version of the indexer:\nfoo = 1\n"] ∧
    check_extra "coins" [("a", "1"), ("b", "2")] =
      ["Found unrecognized coins fields which will be ignored. This could be because of a typo, or because it was introduced in a newer version of the indexer:\na = 1\nb = 2\n"] := by
  have h1 := warning_message_format.2.2.2.2.2.2 "objects" [("foo", "1")]
    (by simp)
  have h2 := warning_message_format.2.2.2.2.2.2 "coins"
    [("a", "1"), ("b", "2")] (by simp)
  exact ⟨h1.trans rfl, h2.trans rfl⟩

end SuiConfig
